import Mathlib

/-!
Verification of the job-orchestration core of the speech2text repository.

The definitions below are a shallow embedding of the Python source:
queue operations, the processing state machine of `mainwindow.py`
(`process_files`, `finished_processing`, `notify_finished`,
`reset_after_err_or_cancelled`, `stop_processing`), the conversion
decision logic (`convert_input_file_if_needed`,
`convert_input_file_format`, `ConvertWorker.run`), the audio probing
helpers of `utils.py` (`get_audio_duration`, `correct_wav_file`,
`check_acceptable_file`), and the output-format reset performed in
`SettingsDialog.accept`.

File-system facts (what `os.path.isfile`, `puremagic.from_file` and
`wave.open` would report for a path) are supplied as an explicit
environment, and the GUI/logging side effects that matter to the
specification are recorded as an event trace.
-/

namespace Speech2Text

/-! ## Python string and path helpers

Models of `os.path.dirname`, `os.path.basename`, `os.path.join` and the
string operations used by the source (`str.split(".")[0]`, `"." in s`,
`str.lower()`).  Paths use `/` as the separator. -/

/-- Split a character list on a separator character; mirrors the
grouping of `str.split` (always at least one, possibly empty, group). -/
def splitOnChar (sep : Char) : List Char → List (List Char)
  | [] => [[]]
  | c :: cs =>
    if c = sep then [] :: splitOnChar sep cs
    else
      match splitOnChar sep cs with
      | [] => [[c]]
      | g :: gs => (c :: g) :: gs

/-- Model of `os.path.dirname`: everything before the last separator. -/
def dirname (p : String) : String :=
  ⟨List.intercalate ['/'] ((splitOnChar '/' p.toList).dropLast)⟩

/-- Model of `os.path.basename`: everything after the last separator. -/
def basename (p : String) : String :=
  ⟨(splitOnChar '/' p.toList).getLastD []⟩

/-- Model of `os.path.join a b` for a relative non-empty component `b`. -/
def os_path_join (a b : String) : String :=
  if a = "" then b else a ++ "/" ++ b

/-- Model of `utils.split_path_file`, which returns the Python tuple
`(os.path.dirname(p), os.path.basename(p))`.  The tuple is modelled as a
list so that call sites can model Python tuple unpacking, which fails at
runtime when the number of names does not match the tuple length. -/
def split_path_file (p : String) : List String :=
  [dirname p, basename p]

/-- Model of `s.split(".")[0]`: Python `str.split` always returns a
non-empty list, so index 0 is its head. -/
def py_stem (s : String) : String :=
  ⟨(splitOnChar '.' s.toList).headD s.toList⟩

/-- Model of the Python test `"." in s`. -/
def py_contains_dot (s : String) : Bool :=
  s.toList.contains '.'

/-! ## Format Prober facts

`FileFacts` packages what the probing calls in `utils.py` would report
for one path: `os.path.isfile`, the `puremagic.from_file` content sniff
(`none` models a raised exception), and the `wave.open` header fields
(`wavReadErr` models a raised `wave.Error`). -/

structure FileFacts where
  isfile : Bool
  sniff : Option String
  wavReadErr : Bool
  wavFrames : Nat
  wavRate : Nat
  wavSampleWidth : Nat
deriving DecidableEq

/-- Facts for a path that does not exist. -/
def FileFacts.absent : FileFacts :=
  { isfile := false, sniff := none, wavReadErr := true
    wavFrames := 0, wavRate := 0, wavSampleWidth := 0 }

/-- Model of `utils.check_acceptable_file`: the file must exist and its
content-sniffed extension must be in the acceptable list; every
`puremagic` exception leaves `ok` at `False`. -/
def check_acceptable_file (ff : FileFacts) (acceptable_extensions : List String) : Bool :=
  ff.isfile &&
    (match ff.sniff with
     | some extension => acceptable_extensions.contains extension
     | none => false)

/-- Model of `utils.correct_wav_file`, returning the Python tuple
`(ok_format, err)`.  On a `wave.Error` the sample rate and width keep
their initial value 0, so `ok_format` is false. -/
def correct_wav_file (ff : FileFacts) : Bool × Bool :=
  let err := ff.wavReadErr
  let sample_rate := if err then 0 else ff.wavRate
  let sample_width := if err then 0 else ff.wavSampleWidth
  (sample_rate == 16000 && sample_width == 2, err)

/-- Python truthiness of a 2-tuple: a non-empty tuple is truthy no
matter what it contains.  `mainwindow.convert_input_file_if_needed`
writes `if not app_utils.correct_wav_file(converted_fpath):`, which
tests the truthiness of the returned pair instead of its first
component. -/
def py_truthy_pair (_t : Bool × Bool) : Bool := true

/-- Model of `utils.get_audio_duration`.  Only a file whose content is
sniffed as `.wav` gets a real duration (`frames / float(rate)`,
modelled as the exact rational `mkRat frames rate`); any probing
failure, a non-wav kind, or a division error yields 0. -/
def get_audio_duration (ff : FileFacts) : ℚ :=
  let extension := if ff.isfile then (match ff.sniff with | some e => e | none => "") else ""
  if extension = ".wav" then
    if ff.wavReadErr || ff.wavRate == 0 then 0
    else mkRat ff.wavFrames ff.wavRate
  else 0

/-! ## Orchestrator state

`Status` is the `Status` enum of `mainwindow.py`; `MW` carries the
fields of `MainWindow` that the orchestration logic reads and writes,
plus the trace of specification-relevant emissions. -/

inductive Status
  | IDLE
  | PROCESSING
  | CONVERTING
  | CANCELLING
deriving DecidableEq

/-- The source compares the `Status` enum value against the string
`"STOPPED"` in `notify_finished`; a `Status` instance never equals a
`str`, so the comparison is always false. -/
def status_eq_str_STOPPED (_s : Status) : Bool := false

/-- Specification-relevant emissions: user-facing messages, desktop
notifications and the anomaly log lines singled out by the spec. -/
inductive Event
  | shortClip
  | engineRun (engine fpath : String)
  | jobCompleted (fpath : String)
  | stillProcessing (n : Nat)
  | runFinished
  | cancelledReport
  | errorReport (msg : String)
  | logDuplicateInsert (fpath : String)
  | logRemoveMissing (fpath : String)
  | logEmptyQueue
  | cancelRequested
deriving DecidableEq

/-- The `MainWindow` fields driven by the orchestration logic:
`self.filenames` (the job queue), `self.status`, `self.STOP`, and the
recorded emission trace. -/
structure MW where
  filenames : List String
  status : Status
  stop : Bool
  events : List Event
deriving DecidableEq

/-- Record one emission. -/
def pushEvent (s : MW) (e : Event) : MW :=
  { s with events := s.events ++ [e] }

/-- Model of `MainWindow.set_status`. -/
def set_status (s : MW) (st : Status) : MW :=
  { s with status := st }

/-- Model of `MainWindow.get_status`. -/
def get_status (s : MW) : Status :=
  s.status

/-- Model of `MainWindow.clear_queue`. -/
def clear_queue (s : MW) : MW :=
  { s with filenames := [] }

/-- Model of `MainWindow.queue_length`. -/
def queue_length (s : MW) : Nat :=
  s.filenames.length

/-- Model of `MainWindow.first_in_queue`: returns the head when the
queue is non-empty, otherwise logs the anomaly and returns the empty
string.  The (unchanged) state is returned alongside so the log line
can be recorded. -/
def first_in_queue (s : MW) : String × MW :=
  if 0 < queue_length s then
    (s.filenames.headD "", s)
  else
    ("", pushEvent s .logEmptyQueue)

/-- Model of `MainWindow.add_to_queue` for a single path (the
`isinstance(filename, str)` branch): the duplicate check only logs, and
the path is prepended regardless. -/
def add_to_queue (s : MW) (filename : String) : MW :=
  let s := if s.filenames.contains filename
           then pushEvent s (.logDuplicateInsert filename) else s
  { s with filenames := filename :: s.filenames }

/-- Model of `MainWindow.add_to_queue` for a list argument (the
`isinstance(filename, list)` branch).  The duplicate check
`if filename in self.filenames` compares the list object itself against
the string elements of the queue, so it never fires on this branch. -/
def add_to_queue_list (s : MW) (filenames : List String) : MW :=
  { s with filenames := filenames ++ s.filenames }

/-- Model of `MainWindow.remove_from_queue`: `list.remove` drops the
first occurrence; a missing path only logs the anomaly and returns
`False`. -/
def remove_from_queue (s : MW) (filename : String) : MW × Bool :=
  if s.filenames.contains filename then
    ({ s with filenames := s.filenames.erase filename }, true)
  else
    (pushEvent s (.logRemoveMissing filename), false)

/-- Model of `MainWindow.stop_processing`: guarded by
`not self.STOP and self.get_status() != Status.CANCELLING`; inside the
guard it sets `STOP`, moves to `CANCELLING` and requests interruption
of the active workers (recorded as one `cancelRequested` event; the
widget updates are elided). -/
def stop_processing (s : MW) : MW :=
  if !s.stop && !(get_status s == Status.CANCELLING) then
    let s := { s with stop := true }
    let s := set_status s Status.CANCELLING
    pushEvent s .cancelRequested
  else s

/-- Model of `MainWindow.reset_after_err_or_cancelled`: the widget
re-enabling is elided; the queue is cleared and the status reset to
`IDLE`.  The `err` argument is unused in the source as well. -/
def reset_after_err_or_cancelled (s : MW) (_err : Bool) : MW :=
  let s := clear_queue s
  set_status s Status.IDLE

/-- Model of `MainWindow.notify_finished`: clears the queue, and (for a
non-conversion completion) reports the overall run completion, restores
the controls (elided) and returns to `IDLE`.  The two comparisons of
the status with the string `"STOPPED"` are always false. -/
def notify_finished (s : MW) (conversion : Bool) : MW :=
  let s := clear_queue s
  if !conversion && !(status_eq_str_STOPPED (get_status s)) then
    let s := pushEvent s .runFinished
    set_status s Status.IDLE
  else
    if status_eq_str_STOPPED (get_status s) then set_status s Status.IDLE else s

/-! ## The run loop

`process_files` dispatches the queue head to the selected engine; each
engine adapter reports back by calling `finished_processing` with
`(fpath, err, cancelled, error_msg)` exactly as the six
`handle_finished` callbacks in the engine modules do.  The asynchronous
boundary is collapsed: the adapter outcome for a path is supplied by
the configuration, and the completion callback runs in place.  The
mutual recursion of the source (completion handlers re-enter
`process_files`) is made total with a fuel argument. -/

/-- Outcome reported by the dispatched engine adapter for one file:
the arguments of its `finished_processing` call-back. -/
inductive EngineOutcome
  | success
  | failed (msg : String)
  | cancelledRun
deriving DecidableEq

/-- The configuration values read during a run: the language selection
(after `lang_to_code`), the active `Whisper/Engine` setting, the
file-system facts and the engine outcome per file. -/
structure Config where
  language : String
  engine : String
  fs : String → FileFacts
  outcome : String → EngineOutcome

/-- The engine names dispatched by the `elif` chain of
`MainWindow.process_files`. -/
def engine_names : List String :=
  ["whisper", "mlx-whisper", "whisper.cpp", "whisper_asr_webservice",
   "whisper.api", "faster-whisper"]

mutual

/-- Model of `MainWindow.process_files`.  When the queue is non-empty
and `STOP` is clear: for the `auto` language selection a probed
duration strictly between 0 and 30 seconds emits the short-clip
message and sets `STOP`; otherwise the head is dispatched to the
selected engine, whose completion call-back is `finished_processing`.
The trailing `if self.STOP:` of the source finishes a stopped run as
cancelled. -/
def process_files (cfg : Config) : Nat → MW → MW
  | 0, s => s
  | fuel + 1, s =>
    if queue_length s > 0 && !s.stop then
      let p := first_in_queue s
      let fpath := p.1
      let s := p.2
      let s :=
        if cfg.language == "auto" then
          let duration := get_audio_duration (cfg.fs fpath)
          if duration > 0 && duration < 30 then
            let s := pushEvent s .shortClip
            { s with stop := true }
          else s
        else s
      if !s.stop then
        if engine_names.contains cfg.engine then
          engine_dispatch cfg fuel (pushEvent s (.engineRun cfg.engine fpath)) fpath
        else s
      else
        finished_processing cfg fuel s "" false false true ""
    else
      if s.stop then finished_processing cfg fuel s "" false false true "" else s

/-- The engine adapter invocation for the queue head: the adapter runs
and its completion handler calls back into `finished_processing` with
the `(err, cancelled, error_msg)` triple reported for the file, exactly
as the per-engine `handle_finished` callbacks do. -/
def engine_dispatch (cfg : Config) : Nat → MW → String → MW
  | 0, s, _ => s
  | fuel + 1, s, fpath =>
    match cfg.outcome fpath with
    | .success => finished_processing cfg fuel s fpath false false false ""
    | .failed msg => finished_processing cfg fuel s fpath true false false msg
    | .cancelledRun => finished_processing cfg fuel s fpath false false true ""

/-- Model of `MainWindow.finished_processing`.  A successful completion
removes the file from the queue and either advances to the next head or
reports the whole run finished; a cancelled or failed completion
reports and funnels into `reset_after_err_or_cancelled`. -/
def finished_processing (cfg : Config) :
    Nat → MW → String → Bool → Bool → Bool → String → MW
  | 0, s, _, _, _, _, _ => s
  | fuel + 1, s, fpath, err, conversion, cancelled, error_msg =>
    if !err && !cancelled then
      let s := pushEvent s (.jobCompleted fpath)
      let s := (remove_from_queue s fpath).1
      let remaining := queue_length s
      let s := if !conversion && remaining > 0
               then pushEvent s (.stillProcessing remaining) else s
      if remaining == 0 && !cancelled then
        notify_finished s conversion
      else
        if !conversion && !cancelled then
          if !s.stop then process_files cfg fuel s
          else finished_processing cfg fuel s "" false false true ""
        else s
    else
      if cancelled then
        let s := pushEvent s .cancelledReport
        reset_after_err_or_cancelled s false
      else
        let s := if error_msg != "" then pushEvent s (.errorReport error_msg)
                 else pushEvent s (.errorReport "An error has occurred.")
        reset_after_err_or_cancelled s err

end

/-! ## Conversion decision logic -/

/-- Answer of the `ask_to_overwrite` dialog. -/
inductive OverwriteResponse
  | yes
  | no
  | yesToAll
  | noToAll
deriving DecidableEq

/-- The settings and run-wide flags read by the conversion logic. -/
structure ConvSettings where
  engine : String
  ffmpeg_fpath : String
  overwrite_all : Bool
  not_overwrite_all : Bool
  response : OverwriteResponse
deriving DecidableEq

/-- What `convert_input_file_format` ends up doing: starting a
`ConvertWorker`, reusing an existing artifact (via
`handle_finished_convert_worker`), or reporting the missing converter
tool. -/
inductive ConvAction
  | startedWorker
  | reusedExisting (final_out_fpath : String)
  | toolUnavailable
deriving DecidableEq

/-- The target path `<dir>/<stem>.<target_format>` computed (twice, in
`convert_input_file_if_needed` and again in
`convert_input_file_format`) from the input path. -/
def converted_target_path (fpath target_format : String) : String :=
  let the_path := dirname fpath
  let the_file0 := basename fpath
  let the_file := if py_contains_dot the_file0 then py_stem the_file0 else the_file0
  os_path_join the_path (the_file ++ "." ++ target_format)

/-- Model of `MainWindow.convert_input_file_format`.  Returns the `err`
flag of the source together with the action taken.  The prior-artifact
branch mirrors the source: the collision-avoiding `_converted` rename,
the overwrite dialog with its run-wide sticky flags, and the reuse
short-circuit; otherwise a worker is started unless no converter tool
is configured and the input is not already WAV. -/
def convert_input_file_format (cfg : ConvSettings) (fs : String → FileFacts)
    (fpath target_format : String) : Bool × ConvAction :=
  let out_fpath := converted_target_path fpath target_format
  let state :=
    if (fs out_fpath).isfile then
      let the_path := dirname out_fpath
      let full_filename := basename out_fpath
      let the_file := if py_contains_dot full_filename then py_stem full_filename
                      else full_filename
      let final_out_filename := the_file ++ "." ++ target_format
      -- source line 1166 joins with `out_filename`, which equals
      -- `final_out_filename` on this branch
      let final_out_fpath := os_path_join the_path (basename out_fpath)
      let renamed :=
        if full_filename = final_out_filename then
          (the_file ++ "_converted." ++ target_format,
           os_path_join the_path (the_file ++ "_converted." ++ target_format))
        else (final_out_filename, final_out_fpath)
      let final_out_fpath := renamed.2
      if (fs final_out_fpath).isfile then
        let prompted :=
          if !cfg.overwrite_all && !cfg.not_overwrite_all then
            match cfg.response with
            | .no => (true, cfg.not_overwrite_all)
            | .noToAll => (true, true)
            | .yesToAll => (false, cfg.not_overwrite_all)
            | .yes => (false, cfg.not_overwrite_all)
          else (false, cfg.not_overwrite_all)
        ((prompted.1 || prompted.2), final_out_fpath)
      else (false, final_out_fpath)
    else (false, "")
  let converted_file_exists := state.1
  let final_out_fpath := state.2
  if !converted_file_exists then
    let is_wav := check_acceptable_file (fs fpath) [".wav"]
    if cfg.ffmpeg_fpath ≠ "" || is_wav then
      (false, .startedWorker)
    else
      (true, .toolUnavailable)
  else
    (false, .reusedExisting final_out_fpath)

/-- What `convert_input_file_if_needed` did besides computing its
result tuple. -/
inductive IfNeededAct
  | noAction
  | queuedExisting (p : String)
  | convFormat (a : ConvAction)
deriving DecidableEq

/-- The result tuple `(err, already_exist, need_conversion,
converted_fpath)` of `convert_input_file_if_needed`, together with the
action taken. -/
structure ConvResult where
  err : Bool
  already_exist : Bool
  need_conversion : Bool
  converted_fpath : String
  act : IfNeededAct
deriving DecidableEq

/-- The extension list accepted by both conversion branches of
`convert_input_file_if_needed`. -/
def accepted_input_extensions : List String :=
  [".wav", ".mp3", ".mp4", ".m4a", ".aiff", ".mpeg", ".mov", ".avi", ".wmv", ".webm"]

/-- The body shared (textually duplicated in the source) by the
`whisper` and `whisper.cpp` branches of `convert_input_file_if_needed`.
A WAV input is probed with `correct_wav_file`; a non-WAV input checks
for a previously converted file, whose format test
`if not app_utils.correct_wav_file(converted_fpath):` is the Python
truthiness of the returned pair and hence never triggers
reconversion. -/
def convert_if_needed_branch (cfg : ConvSettings) (fs : String → FileFacts)
    (fpath converted_fpath target_format : String) : ConvResult :=
  if check_acceptable_file (fs fpath) accepted_input_extensions then
    if check_acceptable_file (fs fpath) [".wav"] then
      let probe := correct_wav_file (fs fpath)
      let ok_format := probe.1
      let err0 := probe.2
      if !err0 then
        if !ok_format then
          let conv := convert_input_file_format cfg fs fpath target_format
          ⟨conv.1, false, true, converted_fpath, .convFormat conv.2⟩
        else ⟨false, false, false, converted_fpath, .noAction⟩
      else
        let conv := convert_input_file_format cfg fs fpath target_format
        ⟨conv.1, false, true, converted_fpath, .convFormat conv.2⟩
    else
      if (fs converted_fpath).isfile then
        if !(py_truthy_pair (correct_wav_file (fs converted_fpath))) then
          let conv := convert_input_file_format cfg fs fpath target_format
          ⟨conv.1, false, true, converted_fpath, .convFormat conv.2⟩
        else
          ⟨false, true, false, converted_fpath, .queuedExisting converted_fpath⟩
      else
        let conv := convert_input_file_format cfg fs fpath target_format
        ⟨conv.1, false, true, converted_fpath, .convFormat conv.2⟩
  else ⟨false, false, false, converted_fpath, .noAction⟩

/-- Model of `MainWindow.convert_input_file_if_needed`: only the
`whisper` and `whisper.cpp` engines convert; every other engine leaves
the defaults untouched. -/
def convert_input_file_if_needed (cfg : ConvSettings) (fs : String → FileFacts)
    (fpath : String) : ConvResult :=
  let target_format := "wav"
  let converted_fpath := converted_target_path fpath target_format
  if cfg.engine = "whisper" then
    convert_if_needed_branch cfg fs fpath converted_fpath target_format
  else if cfg.engine = "whisper.cpp" then
    convert_if_needed_branch cfg fs fpath converted_fpath target_format
  else ⟨false, false, false, converted_fpath, .noAction⟩

/-- The gate in each engine run method
(`if not converted and not already_exist and not err:`) deciding
whether `continue_processing` — the actual recognition worker — is
reached. -/
def engine_would_continue (r : ConvResult) : Bool :=
  !r.need_conversion && !r.already_exist && !r.err

/-! ## ConvertWorker -/

/-- Model of `ConvertWorker.run` up to the computation of the output
path handed to `convert_to_wav`.  The source unpacks
`app_utils.split_path_file(...)` — a 2-tuple — into three names
(`the_path, the_file_name, _`), which raises `ValueError` before any
output path is computed; the 3-name branch mirrors the textual intent
of the source for completeness. -/
def convert_worker_run (original_file_fpath target_format : String) :
    Except String String :=
  match split_path_file original_file_fpath with
  | [the_path, the_file_name, _unused] =>
    let out_filename := the_file_name ++ target_format
    if the_file_name.toLower = out_filename.toLower then
      .ok (os_path_join the_path (the_file_name ++ "_converted" ++ target_format))
    else
      .ok (os_path_join the_path out_filename)
  | _ => .error "ValueError: not enough values to unpack (expected 3, got 2)"

/-! ## Output-format compatibility -/

/-- Model of `MainWindow.output_items`: the output formats offered per
engine. -/
def output_items (engine : String) : List String :=
  if engine == "whisper.cpp" then ["VTT", "SRT", "JSON", "TSV", "LRC", "TEXT"]
  else if engine == "faster-whisper" then ["VTT", "SRT", "TEXT"]
  else ["VTT", "SRT", "JSON", "TEXT"]

/-- Model of the output-format reset at the end of
`SettingsDialog.accept`: after the engine setting is written, an
unsupported selection is downgraded to VTT by the two guarded
resets. -/
def settings_accept_output_reset (previous_engine engine output : String) : String :=
  let output :=
    if engine == "faster-whisper" && !(["VTT", "SRT", "TEXT"].contains output) then
      "VTT"
    else output
  if previous_engine == "whisper.cpp" && !(engine == "whisper.cpp") &&
      (["TSV", "LRC"].contains output) then
    "VTT"
  else output

/-- The per-job successful-completion notifications contained in an
event trace, in emission order. -/
def completions (evs : List Event) : List String :=
  evs.filterMap fun e =>
    match e with
    | .jobCompleted f => some f
    | _ => none

/-- File facts of a run holding one mp3 file, whose probed duration is
0 because `get_audio_duration` only reads wav headers. -/
def unknown_duration_fs : String → FileFacts := fun p =>
  if p = "dir/clip.mp3" then ⟨true, some ".mp3", true, 0, 0, 0⟩
  else FileFacts.absent

/-- Configuration with the auto language selection and the mp3 file of
`unknown_duration_fs` queued for the native-binary engine. -/
def unknown_duration_cfg : Config :=
  ⟨"auto", "whisper.cpp", unknown_duration_fs, fun _ => .success⟩

/-- File facts of a run holding one 12-second wav clip
(192000 frames at 16000 Hz). -/
def short_clip_fs : String → FileFacts := fun p =>
  if p = "dir/clip.wav" then ⟨true, some ".wav", false, 192000, 16000, 2⟩
  else FileFacts.absent

/-- Configuration with the auto language selection and the short wav
clip of `short_clip_fs` queued for the native-binary engine. -/
def short_clip_cfg : Config :=
  ⟨"auto", "whisper.cpp", short_clip_fs, fun _ => .success⟩

/-! ## Helper lemmas -/

theorem first_in_queue_of_cons (s : MW) (x : String) (t : List String)
    (h : s.filenames = x :: t) : first_in_queue s = (x, s) := by
  simp [first_in_queue, queue_length, h]

theorem first_in_queue_of_nil (s : MW) (h : s.filenames = []) :
    first_in_queue s = ("", pushEvent s .logEmptyQueue) := by
  simp [first_in_queue, queue_length, h]

/-! ## C7: idempotence of cancellation -/

/-- C7.  Requesting cancellation is idempotent: a second
`stop_processing` call while already `CANCELLING` is a no-op, and
calling it twice in immediate succession yields the same state as
calling it once. -/
theorem c7_cancel_request_idempotent (s : MW) :
    stop_processing (stop_processing s) = stop_processing s ∧
    (get_status s = Status.CANCELLING → stop_processing s = s) := by
  by_cases hg : (!s.stop && !(get_status s == Status.CANCELLING)) = true
  · have h1 : stop_processing s =
        pushEvent (set_status { s with stop := true } Status.CANCELLING)
          .cancelRequested := by
      rw [stop_processing, if_pos hg]
    constructor
    · rw [h1, stop_processing, if_neg]
      simp [pushEvent, set_status]
    · intro h
      exfalso
      simp [h] at hg
  · have h1 : stop_processing s = s := by
      rw [stop_processing, if_neg hg]
    exact ⟨by rw [h1, h1], fun _ => h1⟩

/-- Witness for C7 at a concrete state. -/
theorem c7_cancel_request_idempotent_witness :
    stop_processing (stop_processing
        ⟨["a"], Status.CANCELLING, false, []⟩) =
      stop_processing ⟨["a"], Status.CANCELLING, false, []⟩ ∧
    (get_status ⟨["a"], Status.CANCELLING, false, []⟩ = Status.CANCELLING →
      stop_processing ⟨["a"], Status.CANCELLING, false, []⟩ =
        ⟨["a"], Status.CANCELLING, false, []⟩) :=
  c7_cancel_request_idempotent ⟨["a"], Status.CANCELLING, false, []⟩

/-! ## C9: queue add and remove -/

/-- C9.  `add_to_queue` prepends and never deduplicates (a duplicate is
logged but still added); `add_to_queue` with a list prepends the list;
`remove_from_queue` on an absent path logs the anomaly, returns false
and leaves the queue unchanged. -/
theorem c9_queue_add_remove (s : MW) (f : String) (l : List String) :
    (add_to_queue s f).filenames = f :: s.filenames ∧
    (f ∈ s.filenames →
      (add_to_queue s f).events = s.events ++ [.logDuplicateInsert f]) ∧
    (add_to_queue_list s l).filenames = l ++ s.filenames ∧
    (f ∉ s.filenames →
      remove_from_queue s f = (pushEvent s (.logRemoveMissing f), false) ∧
      (remove_from_queue s f).1.filenames = s.filenames) := by
  refine ⟨?_, ?_, ?_, ?_⟩
  · by_cases h : f ∈ s.filenames <;> simp [add_to_queue, pushEvent, h]
  · intro h
    simp [add_to_queue, pushEvent, h]
  · simp [add_to_queue_list]
  · intro h
    simp [remove_from_queue, pushEvent, h]

/-- Witness for C9 at a concrete state: `"a"` is already present,
`"zz"` is absent. -/
theorem c9_queue_add_remove_witness :
    (add_to_queue ⟨["a", "b"], Status.IDLE, false, []⟩ "a").filenames =
      "a" :: ["a", "b"] ∧
    ("a" ∈ (["a", "b"] : List String) →
      (add_to_queue ⟨["a", "b"], Status.IDLE, false, []⟩ "a").events =
        [] ++ [.logDuplicateInsert "a"]) ∧
    (add_to_queue_list ⟨["a", "b"], Status.IDLE, false, []⟩ ["c"]).filenames =
      ["c"] ++ ["a", "b"] ∧
    ("zz" ∉ (["a", "b"] : List String) →
      remove_from_queue ⟨["a", "b"], Status.IDLE, false, []⟩ "zz" =
        (pushEvent ⟨["a", "b"], Status.IDLE, false, []⟩ (.logRemoveMissing "zz"),
          false) ∧
      (remove_from_queue ⟨["a", "b"], Status.IDLE, false, []⟩ "zz").1.filenames =
        ["a", "b"]) := by
  have h := c9_queue_add_remove ⟨["a", "b"], Status.IDLE, false, []⟩ "a" ["c"]
  refine ⟨h.1, fun _ => h.2.1 (by decide), h.2.2.1, fun _ => ?_⟩
  have h2 := c9_queue_add_remove ⟨["a", "b"], Status.IDLE, false, []⟩ "zz" ["c"]
  exact h2.2.2.2 (by decide)

/-! ## C10: reading the head of the queue is total -/

/-- C10.  `first_in_queue` on the empty queue logs and returns the
empty string without raising; on a non-empty queue it returns the head
and leaves the state untouched. -/
theorem c10_first_in_queue_total (s : MW) :
    (s.filenames = [] →
      first_in_queue s = ("", pushEvent s .logEmptyQueue)) ∧
    (∀ x t, s.filenames = x :: t → first_in_queue s = (x, s)) :=
  ⟨fun h => first_in_queue_of_nil s h,
   fun x t h => first_in_queue_of_cons s x t h⟩

/-- Witness for C10 at concrete states, one empty and one not. -/
theorem c10_first_in_queue_total_witness :
    first_in_queue ⟨[], Status.IDLE, false, []⟩ =
      ("", pushEvent ⟨[], Status.IDLE, false, []⟩ .logEmptyQueue) ∧
    first_in_queue ⟨["x", "y"], Status.IDLE, false, []⟩ =
      ("x", ⟨["x", "y"], Status.IDLE, false, []⟩) :=
  ⟨(c10_first_in_queue_total ⟨[], Status.IDLE, false, []⟩).1 rfl,
   (c10_first_in_queue_total ⟨["x", "y"], Status.IDLE, false, []⟩).2 "x" ["y"] rfl⟩

/-! ## C2: every halt funnels through the reset routine -/

/-- C2.  Every halting completion — a failed job or a cancelled run —
clears the queue and returns the status to `IDLE` through
`reset_after_err_or_cancelled`; a cancellation is reported by the
dedicated cancellation message (never as an error), while a failure
surfaces its error message. -/
theorem c2_halt_funnels_through_reset (cfg : Config) (fuel : Nat) (s : MW)
    (fpath : String) (err conversion cancelled : Bool) (error_msg : String)
    (h : err = true ∨ cancelled = true) :
    (finished_processing cfg (fuel + 1) s fpath err conversion cancelled
        error_msg).filenames = [] ∧
    (finished_processing cfg (fuel + 1) s fpath err conversion cancelled
        error_msg).status = Status.IDLE ∧
    (cancelled = true →
      finished_processing cfg (fuel + 1) s fpath err conversion cancelled
          error_msg =
        reset_after_err_or_cancelled (pushEvent s .cancelledReport) false) ∧
    (cancelled = false →
      finished_processing cfg (fuel + 1) s fpath err conversion cancelled
          error_msg =
        reset_after_err_or_cancelled
          (pushEvent s (.errorReport
            (if error_msg != "" then error_msg else "An error has occurred.")))
          err) := by
  cases cancelled with
  | true =>
    have hres : finished_processing cfg (fuel + 1) s fpath err conversion true
        error_msg =
        reset_after_err_or_cancelled (pushEvent s .cancelledReport) false := by
      simp [finished_processing]
    refine ⟨?_, ?_, fun _ => hres, fun hc => Bool.noConfusion hc⟩ <;>
      simp [hres, reset_after_err_or_cancelled, clear_queue, set_status]
  | false =>
    have herr : err = true := by
      rcases h with h | h
      · exact h
      · exact Bool.noConfusion h
    subst herr
    have hres : finished_processing cfg (fuel + 1) s fpath true conversion false
        error_msg =
        reset_after_err_or_cancelled
          (pushEvent s (.errorReport
            (if error_msg != "" then error_msg else "An error has occurred.")))
          true := by
      by_cases hm : (error_msg != "") = true
      · simp [finished_processing, hm]
      · simp [finished_processing, hm]
    refine ⟨?_, ?_, fun hc => Bool.noConfusion hc, fun _ => hres⟩ <;>
      simp [hres, reset_after_err_or_cancelled, clear_queue, set_status]

/-- Witness for C2 at a concrete cancelled completion. -/
theorem c2_halt_funnels_through_reset_witness :
    (finished_processing
        ⟨"en", "whisper.cpp", fun _ => FileFacts.absent, fun _ => .success⟩
        1 ⟨["a", "b"], Status.PROCESSING, true, []⟩ "a" false false true
        "").filenames = [] ∧
    (finished_processing
        ⟨"en", "whisper.cpp", fun _ => FileFacts.absent, fun _ => .success⟩
        1 ⟨["a", "b"], Status.PROCESSING, true, []⟩ "a" false false true
        "").status = Status.IDLE ∧
    (true = true →
      finished_processing
          ⟨"en", "whisper.cpp", fun _ => FileFacts.absent, fun _ => .success⟩
          1 ⟨["a", "b"], Status.PROCESSING, true, []⟩ "a" false false true "" =
        reset_after_err_or_cancelled
          (pushEvent ⟨["a", "b"], Status.PROCESSING, true, []⟩ .cancelledReport)
          false) ∧
    (true = false →
      finished_processing
          ⟨"en", "whisper.cpp", fun _ => FileFacts.absent, fun _ => .success⟩
          1 ⟨["a", "b"], Status.PROCESSING, true, []⟩ "a" false false true "" =
        reset_after_err_or_cancelled
          (pushEvent ⟨["a", "b"], Status.PROCESSING, true, []⟩
            (.errorReport (if "" != "" then "" else "An error has occurred.")))
          false) :=
  c2_halt_funnels_through_reset
    ⟨"en", "whisper.cpp", fun _ => FileFacts.absent, fun _ => .success⟩
    0 ⟨["a", "b"], Status.PROCESSING, true, []⟩ "a" false false true ""
    (Or.inr rfl)

/-! ## Run-loop step lemmas -/

theorem completions_append (a b : List Event) :
    completions (a ++ b) = completions a ++ completions b := by
  simp [completions]

theorem process_files_dispatch_step (cfg : Config) (fuel : Nat) (s : MW)
    (x : String) (t : List String)
    (hq : s.filenames = x :: t) (hstop : s.stop = false)
    (hlang : (cfg.language == "auto") = false)
    (heng : engine_names.contains cfg.engine = true) :
    process_files cfg (fuel + 1) s =
      engine_dispatch cfg fuel (pushEvent s (.engineRun cfg.engine x)) x := by
  have heng' : cfg.engine ∈ engine_names := by simpa using heng
  simp only [process_files]
  simp [first_in_queue_of_cons s x t hq, queue_length, hq, hstop, hlang, heng']

theorem engine_dispatch_success (cfg : Config) (fuel : Nat) (s : MW)
    (fpath : String) (hout : cfg.outcome fpath = .success) :
    engine_dispatch cfg (fuel + 1) s fpath =
      finished_processing cfg fuel s fpath false false false "" := by
  simp only [engine_dispatch, hout]

theorem finished_processing_success_last (cfg : Config) (fuel : Nat) (s : MW)
    (x : String) (hq : s.filenames = [x]) :
    finished_processing cfg (fuel + 1) s x false false false "" =
      ⟨[], Status.IDLE, s.stop, s.events ++ [.jobCompleted x, .runFinished]⟩ := by
  simp only [finished_processing]
  simp [pushEvent, remove_from_queue, hq, queue_length, notify_finished,
    clear_queue, get_status, status_eq_str_STOPPED, set_status]

theorem finished_processing_success_more (cfg : Config) (fuel : Nat) (s : MW)
    (x : String) (t : List String)
    (hq : s.filenames = x :: t) (ht : t ≠ []) (hstop : s.stop = false) :
    finished_processing cfg (fuel + 1) s x false false false "" =
      process_files cfg fuel
        ⟨t, s.status, s.stop,
          s.events ++ [.jobCompleted x, .stillProcessing t.length]⟩ := by
  have htl : 0 < t.length := List.length_pos.mpr ht
  simp only [finished_processing]
  simp [pushEvent, remove_from_queue, hq, queue_length, hstop,
    List.erase_cons_head, htl, Nat.pos_iff_ne_zero.mp htl]

/-- The success-only run: processing a non-empty queue in which every
dispatched job succeeds empties the queue, returns to `IDLE`, and emits
exactly the per-job completion notifications for the queue elements in
head order. -/
theorem success_run_aux (cfg : Config)
    (hlang : (cfg.language == "auto") = false)
    (heng : engine_names.contains cfg.engine = true)
    (hout : ∀ f, cfg.outcome f = .success) :
    ∀ q : List String, q ≠ [] → ∀ (fuel : Nat) (s : MW),
      s.filenames = q → s.stop = false → 3 * q.length ≤ fuel →
      (process_files cfg fuel s).filenames = [] ∧
      (process_files cfg fuel s).status = Status.IDLE ∧
      completions (process_files cfg fuel s).events = completions s.events ++ q := by
  intro q
  induction q with
  | nil => intro h; exact absurd rfl h
  | cons x t ih =>
    intro _ fuel s hq hstop hfuel
    obtain ⟨f3, rfl⟩ : ∃ f3, fuel = f3 + 1 + 1 + 1 :=
      ⟨fuel - 3, by simp at hfuel; omega⟩
    rw [process_files_dispatch_step cfg (f3 + 1 + 1) s x t hq hstop hlang heng,
      engine_dispatch_success cfg (f3 + 1)
        (pushEvent s (.engineRun cfg.engine x)) x (hout x)]
    rcases eq_or_ne t [] with rfl | ht
    · rw [finished_processing_success_last cfg f3
        (pushEvent s (.engineRun cfg.engine x)) x (by simp [pushEvent, hq])]
      refine ⟨rfl, rfl, ?_⟩
      simp [pushEvent, completions_append, completions]
    · rw [finished_processing_success_more cfg f3
        (pushEvent s (.engineRun cfg.engine x)) x t (by simp [pushEvent, hq])
        ht (by simp [pushEvent, hstop])]
      have hrec := ih ht f3
        ⟨t, (pushEvent s (.engineRun cfg.engine x)).status,
          (pushEvent s (.engineRun cfg.engine x)).stop,
          (pushEvent s (.engineRun cfg.engine x)).events ++
            [.jobCompleted x, .stillProcessing t.length]⟩
        rfl (by simp [pushEvent, hstop]) (by simp at hfuel ⊢; omega)
      refine ⟨hrec.1, hrec.2.1, ?_⟩
      rw [hrec.2.2]
      simp [pushEvent, completions_append, completions]

/-! ## C1: a fully successful run -/

/-- C1.  For every non-empty queue processed with a recognized engine,
a non-auto language selection and all jobs succeeding, the run ends
with an empty queue and status `IDLE`, and the per-job
successful-completion notifications are exactly the queued files, one
per job, in queue-head order. -/
theorem c1_success_run_completes (cfg : Config) (q : List String)
    (hlang : cfg.language ≠ "auto")
    (heng : cfg.engine ∈ engine_names)
    (hout : ∀ f, cfg.outcome f = .success)
    (hq : q ≠ []) :
    (process_files cfg (3 * q.length)
      ⟨q, Status.PROCESSING, false, []⟩).filenames = [] ∧
    (process_files cfg (3 * q.length)
      ⟨q, Status.PROCESSING, false, []⟩).status = Status.IDLE ∧
    completions (process_files cfg (3 * q.length)
      ⟨q, Status.PROCESSING, false, []⟩).events = q := by
  have h := success_run_aux cfg (by simpa using hlang) (by simpa using heng)
    hout q hq (3 * q.length) ⟨q, Status.PROCESSING, false, []⟩ rfl rfl le_rfl
  simpa [completions] using h

/-- Witness for C1: a two-job queue with the cloud-API engine, both
jobs succeeding. -/
theorem c1_success_run_completes_witness :
    (process_files
      ⟨"en", "whisper.api", fun _ => FileFacts.absent, fun _ => .success⟩
      (3 * (["a", "b"] : List String).length)
      ⟨["a", "b"], Status.PROCESSING, false, []⟩).filenames = [] ∧
    (process_files
      ⟨"en", "whisper.api", fun _ => FileFacts.absent, fun _ => .success⟩
      (3 * (["a", "b"] : List String).length)
      ⟨["a", "b"], Status.PROCESSING, false, []⟩).status = Status.IDLE ∧
    completions (process_files
      ⟨"en", "whisper.api", fun _ => FileFacts.absent, fun _ => .success⟩
      (3 * (["a", "b"] : List String).length)
      ⟨["a", "b"], Status.PROCESSING, false, []⟩).events = ["a", "b"] :=
  c1_success_run_completes
    ⟨"en", "whisper.api", fun _ => FileFacts.absent, fun _ => .success⟩
    ["a", "b"] (by decide) (by decide) (fun _ => rfl) (by decide)

/-! ## C3: the automatic-language-detection duration guard -/

/-- C3 (counterexample).  A job with language selection auto whose
probed duration is unknown — reported as 0, which is shorter than 30
seconds — is NOT aborted: the engine is dispatched and the job runs to
completion with no short-clip message, contradicting the claim that
every sub-30-second duration (unknown treated as 0) aborts the run. -/
theorem c3_auto_guard_counterexample :
    get_audio_duration (unknown_duration_cfg.fs "dir/clip.mp3") = 0 ∧
    ((0 : ℚ) < 30) ∧
    unknown_duration_cfg.language = "auto" ∧
    process_files unknown_duration_cfg 3
        ⟨["dir/clip.mp3"], Status.PROCESSING, false, []⟩ =
      ⟨[], Status.IDLE, false,
        [.engineRun "whisper.cpp" "dir/clip.mp3", .jobCompleted "dir/clip.mp3",
         .runFinished]⟩ :=
  ⟨rfl, by decide, rfl, rfl⟩

/-- C3 (amended).  With the auto language selection, the head job is
aborted — short-clip message, run cancelled, queue cleared, status back
to `IDLE` — exactly when its probed duration is strictly between 0 and
30 seconds; a job with zero (unknown) probed duration, or one of 30
seconds or more, is dispatched to the engine adapter. -/
theorem c3_auto_guard_amended (cfg : Config) (fuel : Nat) (s : MW)
    (x : String) (t : List String)
    (hq : s.filenames = x :: t) (hstop : s.stop = false)
    (hlang : (cfg.language == "auto") = true)
    (heng : engine_names.contains cfg.engine = true) :
    (0 < get_audio_duration (cfg.fs x) ∧ get_audio_duration (cfg.fs x) < 30 →
      (process_files cfg (fuel + 2) s).events =
        s.events ++ [.shortClip, .cancelledReport] ∧
      (process_files cfg (fuel + 2) s).status = Status.IDLE ∧
      (process_files cfg (fuel + 2) s).filenames = []) ∧
    (¬(0 < get_audio_duration (cfg.fs x) ∧ get_audio_duration (cfg.fs x) < 30) →
      process_files cfg (fuel + 2) s =
        engine_dispatch cfg (fuel + 1) (pushEvent s (.engineRun cfg.engine x)) x) := by
  have heng' : cfg.engine ∈ engine_names := by simpa using heng
  constructor
  · rintro ⟨h1, h2⟩
    have habort : process_files cfg (fuel + 2) s =
        reset_after_err_or_cancelled
          (pushEvent { pushEvent s .shortClip with stop := true }
            .cancelledReport) false := by
      simp only [process_files]
      simp [first_in_queue_of_cons s x t hq, queue_length, hq, hstop, hlang,
        h1, h2, finished_processing, pushEvent]
    simp [habort, reset_after_err_or_cancelled, clear_queue, set_status,
      pushEvent]
  · intro hn
    simp only [process_files]
    simp [first_in_queue_of_cons s x t hq, queue_length, hq, hstop, hlang,
      heng', hn]

/-- Witness for the amended C3 at the 12-second clip: the run is
aborted with the short-clip message; the dispatch direction holds
vacuously. -/
theorem c3_auto_guard_amended_witness :
    (0 < get_audio_duration (short_clip_cfg.fs "dir/clip.wav") ∧
        get_audio_duration (short_clip_cfg.fs "dir/clip.wav") < 30 →
      (process_files short_clip_cfg 3
          ⟨["dir/clip.wav"], Status.PROCESSING, false, []⟩).events =
        [] ++ [.shortClip, .cancelledReport] ∧
      (process_files short_clip_cfg 3
          ⟨["dir/clip.wav"], Status.PROCESSING, false, []⟩).status =
        Status.IDLE ∧
      (process_files short_clip_cfg 3
          ⟨["dir/clip.wav"], Status.PROCESSING, false, []⟩).filenames = []) ∧
    (¬(0 < get_audio_duration (short_clip_cfg.fs "dir/clip.wav") ∧
        get_audio_duration (short_clip_cfg.fs "dir/clip.wav") < 30) →
      process_files short_clip_cfg 3
          ⟨["dir/clip.wav"], Status.PROCESSING, false, []⟩ =
        engine_dispatch short_clip_cfg 2
          (pushEvent ⟨["dir/clip.wav"], Status.PROCESSING, false, []⟩
            (.engineRun short_clip_cfg.engine "dir/clip.wav"))
          "dir/clip.wav") :=
  c3_auto_guard_amended short_clip_cfg 1
    ⟨["dir/clip.wav"], Status.PROCESSING, false, []⟩ "dir/clip.wav" []
    rfl rfl rfl (by decide)

/-! ## C8: output-format downgrade on engine switch -/

/-- C8.  When the engine selection changes, a previously selectable
output format that the new engine does not offer is reset to VTT, and a
format the new engine supports is left unchanged. -/
theorem c8_output_format_downgrade (previous_engine engine output : String)
    (hp : previous_engine ∈ engine_names) (he : engine ∈ engine_names)
    (hchange : previous_engine ≠ engine)
    (hsel : output ∈ output_items previous_engine) :
    (output ∈ output_items engine →
      settings_accept_output_reset previous_engine engine output = output) ∧
    (output ∉ output_items engine →
      settings_accept_output_reset previous_engine engine output = "VTT") := by
  simp only [engine_names, List.mem_cons, List.not_mem_nil, or_false] at hp he
  rcases hp with rfl | rfl | rfl | rfl | rfl | rfl <;>
    rcases he with rfl | rfl | rfl | rfl | rfl | rfl <;>
      first
        | exact absurd rfl hchange
        | (fin_cases hsel <;> decide)

/-- Witness for C8: switching from the native-binary engine with TSV
selected to the cloud-API engine resets the selection to VTT. -/
theorem c8_output_format_downgrade_witness :
    ("TSV" ∈ output_items "whisper.api" →
      settings_accept_output_reset "whisper.cpp" "whisper.api" "TSV" = "TSV") ∧
    ("TSV" ∉ output_items "whisper.api" →
      settings_accept_output_reset "whisper.cpp" "whisper.api" "TSV" = "VTT") :=
  c8_output_format_downgrade "whisper.cpp" "whisper.api" "TSV"
    (by decide) (by decide) (by decide) (by decide)

/-! ## C6: missing converter tool rejects non-WAV input -/

/-- C6.  For an engine that requires WAV input (`whisper` or
`whisper.cpp`), an accepted input that is not already WAV, with no
converter tool configured and no previously converted artifact at the
target path, makes the conversion decision fail with the
tool-unavailable error: no conversion worker starts and the engine run
gate never reaches `continue_processing`. -/
theorem c6_tool_unavailable_rejects_non_wav (cfg : ConvSettings)
    (fs : String → FileFacts) (fpath : String)
    (heng : cfg.engine = "whisper" ∨ cfg.engine = "whisper.cpp")
    (hacc : check_acceptable_file (fs fpath) accepted_input_extensions = true)
    (hwav : check_acceptable_file (fs fpath) [".wav"] = false)
    (hff : cfg.ffmpeg_fpath = "")
    (habs : (fs (converted_target_path fpath "wav")).isfile = false) :
    (convert_input_file_if_needed cfg fs fpath).err = true ∧
    (convert_input_file_if_needed cfg fs fpath).act =
      .convFormat .toolUnavailable ∧
    engine_would_continue (convert_input_file_if_needed cfg fs fpath) = false := by
  have hconv : convert_input_file_format cfg fs fpath "wav" =
      (true, .toolUnavailable) := by
    rw [convert_input_file_format]
    simp [habs, hff, hwav]
  have hbr : convert_if_needed_branch cfg fs fpath
      (converted_target_path fpath "wav") "wav" =
      ⟨true, false, true, converted_target_path fpath "wav",
        .convFormat .toolUnavailable⟩ := by
    rw [convert_if_needed_branch]
    simp [hacc, hwav, habs, hconv]
  have hres : convert_input_file_if_needed cfg fs fpath =
      ⟨true, false, true, converted_target_path fpath "wav",
        .convFormat .toolUnavailable⟩ := by
    rcases heng with h | h <;>
      · rw [convert_input_file_if_needed]
        simp [h, hbr]
  simp [hres, engine_would_continue]

/-- Witness for C6: a sniffed mp3 input, no ffmpeg, no prior artifact. -/
theorem c6_tool_unavailable_rejects_non_wav_witness :
    (("whisper.cpp" : String) = "whisper" ∨
      ("whisper.cpp" : String) = "whisper.cpp") ∧
    ((convert_input_file_if_needed
        ⟨"whisper.cpp", "", false, false, .yes⟩
        (fun p => if p = "dir/speech.mp3"
                  then ⟨true, some ".mp3", true, 0, 0, 0⟩
                  else FileFacts.absent)
        "dir/speech.mp3").err = true ∧
      (convert_input_file_if_needed
        ⟨"whisper.cpp", "", false, false, .yes⟩
        (fun p => if p = "dir/speech.mp3"
                  then ⟨true, some ".mp3", true, 0, 0, 0⟩
                  else FileFacts.absent)
        "dir/speech.mp3").act = .convFormat .toolUnavailable ∧
      engine_would_continue (convert_input_file_if_needed
        ⟨"whisper.cpp", "", false, false, .yes⟩
        (fun p => if p = "dir/speech.mp3"
                  then ⟨true, some ".mp3", true, 0, 0, 0⟩
                  else FileFacts.absent)
        "dir/speech.mp3") = false) :=
  ⟨Or.inr rfl,
    c6_tool_unavailable_rejects_non_wav
      ⟨"whisper.cpp", "", false, false, .yes⟩
      (fun p => if p = "dir/speech.mp3"
                then ⟨true, some ".mp3", true, 0, 0, 0⟩
                else FileFacts.absent)
      "dir/speech.mp3" (Or.inr rfl) (by decide) (by decide) rfl (by decide)⟩

/-! ## C4: reuse of an existing converted file ignores its format -/

/-- C4 (code bug).  For a non-WAV input whose converted target path is
occupied by a file that is NOT in the canonical 16000 Hz / 16-bit
format (here 44100 Hz — e.g. a partial artifact of a failed earlier
attempt), `convert_input_file_if_needed` still reports it as already
converted and reuses it: the format re-check tests the Python
truthiness of the `(ok_format, err)` tuple, which never fails. -/
theorem c4_stale_artifact_reused_despite_format :
    (correct_wav_file
      ((fun p => if p = "dir/speech.mp3" then ⟨true, some ".mp3", true, 0, 0, 0⟩
                 else if p = "dir/speech.wav"
                 then ⟨true, some ".wav", false, 441000, 44100, 2⟩
                 else FileFacts.absent)
        "dir/speech.wav")).1 = false ∧
    convert_input_file_if_needed
        ⟨"whisper.cpp", "/usr/bin/ffmpeg", false, false, .yes⟩
        (fun p => if p = "dir/speech.mp3" then ⟨true, some ".mp3", true, 0, 0, 0⟩
                  else if p = "dir/speech.wav"
                  then ⟨true, some ".wav", false, 441000, 44100, 2⟩
                  else FileFacts.absent)
        "dir/speech.mp3" =
      ⟨false, true, false, "dir/speech.wav", .queuedExisting "dir/speech.wav"⟩ := by
  constructor
  · decide
  · rfl

/-! ## C5: ConvertWorker output naming -/

/-- C5 (code bug).  `ConvertWorker.run` can never produce the
`speech_converted.wav` name the specification requires: its very first
statement unpacks the 2-tuple returned by `utils.split_path_file` into
three names, which raises `ValueError`, so no output path is ever
computed and no file is written. -/
theorem c5_convert_worker_unpack_error :
    (split_path_file "dir/speech.wav").length = 2 ∧
    convert_worker_run "dir/speech.wav" "wav" =
      .error "ValueError: not enough values to unpack (expected 3, got 2)" :=
  ⟨rfl, rfl⟩

end Speech2Text
